import Mathlib

/-!
Verification of the dome mesh partitioning and polar-projection shading
pipeline of the VSE-to-3D-environment add-on (src/__init__.py).

The Python source is shallowly embedded below: float arithmetic is modelled
as real arithmetic, the Blender scene as explicit state records, and the
shader node trees as explicit node/edge lists.  Each definition mirrors one
function or code block of the source.
-/

open Real

namespace VseDome

/-- A 3D vertex coordinate (Blender mathutils Vector, components of v.co). -/
structure V3 where
  x : ℝ
  y : ℝ
  z : ℝ
deriving Inhabited

/-- Planar distance from the vertical axis: sqrt(x*x + y*y), as computed at
src/__init__.py line 57. -/
noncomputable def planarRadius (v : V3) : ℝ :=
  Real.sqrt (v.x * v.x + v.y * v.y)

/-- The radial remap realised by redistribute_floor_geometry
(src/__init__.py lines 54-70): for current_r > 0.0001 the new radius is
asin(min(current_r, 1)) / (pi/2); otherwise the vertex is untouched, so the
radius stays as it is. -/
noncomputable def remap (r : ℝ) : ℝ :=
  if 1 / 10000 < r then Real.arcsin (min r 1) / (π / 2) else r

/-- The per-vertex body of the loop of redistribute_floor_geometry
(src/__init__.py lines 54-70): scale x and y by new_r / current_r when
current_r > 0.0001, leave z alone. -/
noncomputable def redistributeVertex (v : V3) : V3 :=
  let current_r := planarRadius v
  if 1 / 10000 < current_r then
    let curr_r_clamped := min current_r 1
    let angle := Real.arcsin curr_r_clamped
    let new_r := angle / (π / 2)
    let scale_factor := new_r / current_r
    ⟨v.x * scale_factor, v.y * scale_factor, v.z⟩
  else v

/-- redistribute_floor_geometry applied to the whole vertex list of the
floor mesh (src/__init__.py lines 46-70). -/
noncomputable def redistribute_floor_geometry (vs : List V3) : List V3 :=
  vs.map redistributeVertex

/-- Object-space to world-space position for an object with the given
per-axis scale (the only transform the add-on changes; the dome is created
at the origin with identity rotation). -/
def worldPos (scale : V3) (v : V3) : V3 :=
  ⟨scale.x * v.x, scale.y * v.y, scale.z * v.z⟩

/-- The floor object as left by VSE_OT_ConvertToHalfDome.execute
(src/__init__.py lines 286-292): the object scale inherited from the dome
is (20, 20, 20), flattening sets scale.z = 0, and then
redistribute_floor_geometry rewrites the mesh vertex data. -/
noncomputable def floorProcess (verts : List V3) : V3 × List V3 :=
  (⟨20, 20, 0⟩, redistribute_floor_geometry verts)

/-- A mesh face, as the ordered list of its vertex coordinates. -/
def Face : Type := List V3

/-- The z component of bmesh's f.calc_center_median(): the arithmetic mean
of the face's vertex coordinates (Blender's "median center"). -/
noncomputable def faceMedianZ (f : Face) : ℝ :=
  (List.map V3.z f).sum / (List.length f : ℝ)

/-- The selection predicate of the separation loop
(src/__init__.py line 266): a face goes to the floor iff
f.calc_center_median().z <= 0.001. -/
def isFloorFace (f : Face) : Prop :=
  faceMedianZ f ≤ 1 / 1000

/-- A face stays in the shell iff it was not selected for the floor. -/
def isShellFace (f : Face) : Prop :=
  ¬ faceMedianZ f ≤ 1 / 1000

/-- The ShaderNodeMapping node of the floor material with only Rotation z
set (src/__init__.py lines 116-118): it rotates the input point about the
vertical axis by the given angle. -/
noncomputable def rotZ (a : ℝ) (v : V3) : V3 :=
  ⟨v.x * Real.cos a - v.y * Real.sin a, v.x * Real.sin a + v.y * Real.cos a,
    v.z⟩

/-- Blender's ARCTAN2 math node: the signed angle in (-π, π] of the point
(x, y), i.e. atan2(y, x). -/
noncomputable def arctan2 (y x : ℝ) : ℝ :=
  Complex.arg ⟨x, y⟩

/-- Blender's Map Range node in its default clamped linear mode
(src/__init__.py lines 128-133 set From Min = -π, From Max = π,
To Min = 0, To Max = 1). -/
noncomputable def mapRange (v a b c d : ℝ) : ℝ :=
  min (max ((v - a) / (b - a) * (d - c) + c) c) d

/-- The U (angle) channel of the floor polar shader (src/__init__.py lines
111-157): object position → -90° Z rotation → SeparateXYZ →
Arctan2(Y, X) → MapRange from [-π, π] to [0, 1]. -/
noncomputable def floorU (v : V3) : ℝ :=
  let p := rotZ (-(π / 2)) v
  mapRange (arctan2 p.y p.x) (-π) π 0 1

/-- floorU evaluated on the unit-circle point at angle θ before the
rotation correction. -/
noncomputable def uAngle (θ : ℝ) : ℝ :=
  floorU ⟨Real.cos θ, Real.sin θ, 0⟩

/-- The node kinds used by the two material node trees.  An image-sampling
node carries the outcome of the attempted image load: none when
bpy.data.images.load raised and the except branch swallowed the error
(src/__init__.py lines 104-109 and 183-185). -/
inductive NodeKind where
  | outputMaterial
  | mixShader
  | emission
  | diffuse
  | texImage (img : Option String)
  | texCoord
  | mapping
  | separateXYZ
  | mathArctan2
  | mapRangeNode
  | vectorLength
  | mathMultiply
  | combineXYZ
  | texEnvironment (img : Option String)
deriving DecidableEq

/-- The nodes created by create_polar_shader (src/__init__.py lines
85-147), numbered in creation order: 0 output, 1 mix, 2 emission,
3 diffuse, 4 image texture, 5 texture coordinate, 6 mapping (rotation),
7 separate, 8 arctan2, 9 map range, 10 vector length, 11 multiply,
12 combine. -/
def polarNodes (img : Option String) : List (Nat × NodeKind) :=
  [(0, .outputMaterial), (1, .mixShader), (2, .emission), (3, .diffuse),
    (4, .texImage img), (5, .texCoord), (6, .mapping), (7, .separateXYZ),
    (8, .mathArctan2), (9, .mapRangeNode), (10, .vectorLength),
    (11, .mathMultiply), (12, .combineXYZ)]

/-- The links created by create_polar_shader (src/__init__.py lines
149-172), as (source node, destination node) pairs in source order. -/
def polarLinks : List (Nat × Nat) :=
  [(5, 6), (6, 7), (7, 8), (7, 8), (8, 9), (9, 12), (6, 10), (10, 11),
    (11, 12), (12, 4), (4, 2), (4, 3), (2, 1), (3, 1), (1, 0)]

/-- The nodes created by create_dome_shell_mat (src/__init__.py lines
183-189): 0 environment texture, 1 texture coordinate, 2 emission,
3 output. -/
def shellNodes (img : Option String) : List (Nat × NodeKind) :=
  [(0, .texEnvironment img), (1, .texCoord), (2, .emission),
    (3, .outputMaterial)]

/-- The links created by create_dome_shell_mat (src/__init__.py lines
191-193). -/
def shellLinks : List (Nat × Nat) :=
  [(1, 0), (0, 2), (2, 3)]

/-- Bounded reachability along directed edges: reachIn es k a b holds when
a path of at most k edges leads from a to b. -/
def reachIn (es : List (Nat × Nat)) : Nat → Nat → Nat → Bool
  | 0, a, b => a == b
  | k + 1, a, b =>
    a == b || es.any fun e => e.1 == a && reachIn es k e.2 b

/-- A directed graph is acyclic when its nodes admit an order in which
every edge points strictly forward. -/
def acyclicG (es : List (Nat × Nat)) : Prop :=
  ∃ ord : Nat → Nat, ∀ e ∈ es, ord e.1 < ord e.2

/-- Reserved scene object names (src/__init__.py lines 16-19). -/
def NAME_DOME_SHELL : String := "VSE_Dome_Shell"

def NAME_DOME_FLOOR : String := "VSE_Dome_Floor"

def NAME_ENV_CATCHER : String := "VSE_Shadow_Catcher"

def NAME_SUN : String := "VSE_Sun"

/-- The kind of the active sequencer strip. -/
inductive StripType where
  | movie
  | image
  | other
deriving DecidableEq

/-- One element of an image strip (only its filename is read). -/
structure StripElement where
  filename : String
deriving Inhabited

/-- The fields of the active strip read by get_strip_path. -/
structure Strip where
  kind : StripType
  filepath : String
  directory : String
  elements : List StripElement

/-- The sequence editor with its optional active strip. -/
structure SeqEditor where
  active_strip : Option Strip

/-- The context as consulted by get_strip_path. -/
structure Context where
  sequence_editor : Option SeqEditor

/-- get_strip_path (src/__init__.py lines 21-35): returns none when there
is no sequence editor, no active strip, or the strip is neither MOVIE nor
IMAGE; otherwise the host-resolved absolute path.  bpy.path.abspath is a
host capability, passed in as abspath.  (Blender guarantees an image strip
has at least one element; headI models elements[0].) -/
def get_strip_path (abspath : String → String) (c : Context) : Option String :=
  match c.sequence_editor with
  | none => none
  | some se =>
    match se.active_strip with
    | none => none
    | some strip =>
      match strip.kind with
      | .movie => some (abspath strip.filepath)
      | .image =>
        some (abspath (strip.directory ++ strip.elements.headI.filename))
      | .other => none

/-- The condition under which the claim's NoMediaSelected error fires: no
sequence editor, no active strip, or a strip that is neither movie nor
image. -/
def stripInvalid (c : Context) : Prop :=
  match c.sequence_editor with
  | none => True
  | some se =>
    match se.active_strip with
    | none => True
    | some strip => strip.kind = .other

/-- Operator return status ({'FINISHED'} / {'CANCELLED'}). -/
inductive OpStatus where
  | finished
  | cancelled
deriving DecidableEq

/-- The slice of Blender scene state the two operators mutate: the render
engine, the object names present (in creation order), whether a world
exists, the strength of its Background node (none when the world's node
tree has no node named Background), and the materials and redistributed
vertex data produced for the dome. -/
structure SceneState where
  engine : String
  objects : List String
  hasWorld : Bool
  worldStrength : Option ℝ
  shellMat : Option (List (Nat × NodeKind) × List (Nat × Nat))
  floorMat : Option (List (Nat × NodeKind) × List (Nat × Nat))
  floorVerts : Option (List V3)

/-- delete_existing_object (src/__init__.py lines 40-44): remove the
object registered under the name, if any. -/
def delete_existing_object (name : String) (objs : List String) : List String :=
  if name ∈ objs then objs.erase name else objs

open Classical in
/-- The face-selection step of the separation (src/__init__.py lines
265-266): the faces whose median center z is at most 0.001. -/
noncomputable def floorSelect (mesh : List Face) : List Face :=
  mesh.filter fun f => faceMedianZ f ≤ 1 / 1000

/-- The mutation performed by VSE_OT_ConvertToHalfDome.execute once the
strip path has resolved (src/__init__.py lines 240-308): switch to Cycles,
delete the reserved objects, darken the world background, build the dome,
separate the floor faces, and — only when the separation produced a floor
object — flatten it, redistribute its vertices and give it the polar
material; the shell material and the sun are created unconditionally.
load models bpy.data.images.load with its tolerant failure mode. -/
noncomputable def halfDomeBody (load : String → Option String)
    (filepath : String) (mesh : List Face) (s : SceneState) : SceneState :=
  let objs := delete_existing_object NAME_SUN
    (delete_existing_object NAME_DOME_FLOOR
      (delete_existing_object NAME_DOME_SHELL s.objects))
  let floorFaces := floorSelect mesh
  { engine := "CYCLES"
    hasWorld := true
    worldStrength :=
      if s.hasWorld then s.worldStrength.map (fun _ => 0) else some 0
    objects := objs ++ [NAME_DOME_SHELL] ++
      (if floorFaces.isEmpty then [] else [NAME_DOME_FLOOR]) ++ [NAME_SUN]
    shellMat := some (shellNodes (load filepath), shellLinks)
    floorMat :=
      if floorFaces.isEmpty then none
      else some (polarNodes (load filepath), polarLinks)
    floorVerts :=
      if floorFaces.isEmpty then none
      else some (redistribute_floor_geometry floorFaces.flatten) }

/-- VSE_OT_ConvertToHalfDome.execute (src/__init__.py lines 234-309):
resolve the strip path first; a missing or falsy path aborts with
CANCELLED before any mutation. -/
noncomputable def halfDomeExecute (abspath : String → String)
    (load : String → Option String) (mesh : List Face) (c : Context)
    (s : SceneState) : OpStatus × SceneState :=
  match get_strip_path abspath c with
  | none => (.cancelled, s)
  | some filepath =>
    if filepath.isEmpty then (.cancelled, s)
    else (.finished, halfDomeBody load filepath mesh s)

/-- The mutation performed by VSE_OT_ConvertToEnvironment.execute once the
path has resolved (src/__init__.py lines 203-227): Cycles, a rebuilt world
node tree (fresh Background node at default strength 1), and a replaced
shadow-catcher plane. -/
def envBody (s : SceneState) : SceneState :=
  { engine := "CYCLES"
    hasWorld := true
    worldStrength := some 1
    objects := delete_existing_object NAME_ENV_CATCHER s.objects ++
      [NAME_ENV_CATCHER]
    shellMat := s.shellMat
    floorMat := s.floorMat
    floorVerts := s.floorVerts }

/-- VSE_OT_ConvertToEnvironment.execute (src/__init__.py lines 200-227). -/
def envExecute (abspath : String → String) (c : Context) (s : SceneState) :
    OpStatus × SceneState :=
  match get_strip_path abspath c with
  | none => (.cancelled, s)
  | some filepath =>
    if filepath.isEmpty then (.cancelled, s) else (.finished, envBody s)

end VseDome

namespace VseDome

theorem remap_of_le {r : ℝ} (h : r ≤ 1 / 10000) : remap r = r := by
  simp only [remap, if_neg (not_lt.mpr h)]

theorem remap_of_gt {r : ℝ} (h : 1 / 10000 < r) :
    remap r = Real.arcsin (min r 1) / (π / 2) := by
  simp only [remap, if_pos h]

/-- Jordan-type bound specialised to arcsin: for 0 ≤ r ≤ 1 we have
arcsin r / (π/2) ≤ r, i.e. the remap never moves a radius outward. -/
theorem arcsin_div_le {r : ℝ} (h0 : 0 ≤ r) (h1 : r ≤ 1) :
    Real.arcsin r / (π / 2) ≤ r := by
  have hmem := Real.arcsin_mem_Icc r
  have hx0 : 0 ≤ Real.arcsin r := Real.arcsin_nonneg.mpr h0
  have hx2 : Real.arcsin r ≤ π / 2 := Real.arcsin_le_pi_div_two r
  have hj : 2 / π * Real.arcsin r ≤ Real.sin (Real.arcsin r) :=
    Real.mul_le_sin hx0 hx2
  rw [Real.sin_arcsin (by linarith) h1] at hj
  have hπ : (0:ℝ) < π := Real.pi_pos
  have hhalf : (0:ℝ) < π / 2 := by positivity
  rw [div_le_iff₀ hhalf]
  have hmul := mul_le_mul_of_nonneg_right hj hhalf.le
  have heq : 2 / π * Real.arcsin r * (π / 2) = Real.arcsin r := by
    field_simp
  linarith [heq ▸ hmul]

/-- Helper: the remap of radius 1/2 is exactly 1/3 (arcsin(1/2) = π/6). -/
theorem remap_one_half : remap (1 / 2 : ℝ) = 1 / 3 := by
  have hπ : (0:ℝ) < π := Real.pi_pos
  have harc : Real.arcsin (1 / 2 : ℝ) = π / 6 := by
    rw [← Real.sin_pi_div_six]
    exact Real.arcsin_sin (by linarith) (by linarith)
  rw [remap_of_gt (by norm_num), min_eq_left (by norm_num), harc]
  field_simp
  ring

/-- C1 counterexample: at r = 1/2 the remap computed by
redistribute_floor_geometry gives new radius 1/3, so the scale factor
remap(r)/r = 2/3 is strictly below 1 — the linearization moves the ring
inward, refuting the claim that remap(r)/r ≥ 1 on (0,1]. -/
theorem c1_counterexample :
    remap (1 / 2 : ℝ) = 1 / 3 ∧ remap (1 / 2 : ℝ) / (1 / 2) < 1 := by
  refine ⟨remap_one_half, ?_⟩
  rw [remap_one_half]
  norm_num

/-- C1 (amended): for every radius r in (0,1], the radial remap of
redistribute_floor_geometry satisfies remap(r) > 0, remap(r) ≤ 1, and the
scale factor remap(r)/r is at most 1: the linearization never moves a ring
outward (mid-radius rings move inward, the endpoints stay fixed). -/
theorem c1_remap_bounds (r : ℝ) (h0 : 0 < r) (h1 : r ≤ 1) :
    0 < remap r ∧ remap r ≤ 1 ∧ remap r / r ≤ 1 := by
  by_cases hc : 1 / 10000 < r
  · rw [remap_of_gt hc, min_eq_left h1]
    have hhalf : (0:ℝ) < π / 2 := by positivity
    refine ⟨div_pos (Real.arcsin_pos.mpr h0) hhalf, ?_, ?_⟩
    · rw [div_le_one hhalf]
      exact Real.arcsin_le_pi_div_two r
    · rw [div_le_one h0]
      exact arcsin_div_le h0.le h1
  · rw [remap_of_le (not_lt.mp hc)]
    exact ⟨h0, h1, by rw [div_self h0.ne']⟩

/-- C1 witness: the amended bounds evaluated at the concrete radius r = 3/4. -/
theorem c1_witness :
    (0 < (3 / 4 : ℝ) ∧ (3 / 4 : ℝ) ≤ 1) ∧
      (0 < remap (3 / 4 : ℝ) ∧ remap (3 / 4 : ℝ) ≤ 1 ∧
        remap (3 / 4 : ℝ) / (3 / 4) ≤ 1) :=
  ⟨⟨by norm_num, by norm_num⟩, c1_remap_bounds (3 / 4) (by norm_num) (by norm_num)⟩

/-- Helper: arcsin(1/8000) is strictly smaller than π/20000, i.e. the
asin branch of the remap at r = 1/8000 lands strictly below 1/10000. -/
theorem arcsin_small_lt : Real.arcsin (1 / 8000 : ℝ) < π / 20000 := by
  have hπ : (0:ℝ) < π := Real.pi_pos
  have hl := Real.pi_gt_d2
  have hu := Real.pi_lt_d2
  have h3 : π ^ 3 < (3.15:ℝ) ^ 3 := pow_lt_pow_left₀ hu hπ.le (by norm_num)
  have hcube : (1:ℝ) / 8000 < π / 20000 - (π / 20000) ^ 3 / 4 := by nlinarith
  have hs : π / 20000 - (π / 20000) ^ 3 / 4 < Real.sin (π / 20000) :=
    Real.sin_gt_sub_cube (by positivity) (by nlinarith [Real.pi_lt_four])
  have hsin : Real.sin (Real.arcsin (1 / 8000 : ℝ)) = 1 / 8000 :=
    Real.sin_arcsin (by norm_num) (by norm_num)
  have hmem := Real.arcsin_mem_Icc (1 / 8000 : ℝ)
  have hbmem : π / 20000 ∈ Set.Icc (-(π / 2)) (π / 2) := by
    constructor <;> nlinarith
  have hlt : Real.sin (Real.arcsin (1 / 8000 : ℝ)) < Real.sin (π / 20000) := by
    rw [hsin]; linarith
  exact (Real.strictMonoOn_sin.lt_iff_lt hmem hbmem).mp hlt

/-- C4 counterexample: monotonicity of the remap fails at the 1e-4
threshold: 1/10000 ≤ 1/8000, yet remap(1/8000) = asin(1/8000)/(π/2) ≈
7.96e-5 is strictly below remap(1/10000) = 1/10000 (identity branch), so
the function is not monotonically non-decreasing over all r ≥ 0. -/
theorem c4_counterexample :
    (0:ℝ) ≤ 1 / 10000 ∧ (1 / 10000 : ℝ) ≤ 1 / 8000 ∧
      remap (1 / 8000 : ℝ) < remap (1 / 10000 : ℝ) := by
  refine ⟨by norm_num, by norm_num, ?_⟩
  rw [show remap (1 / 10000 : ℝ) = 1 / 10000 from remap_of_le (by norm_num),
    show remap (1 / 8000 : ℝ) = Real.arcsin (min (1 / 8000 : ℝ) 1) / (π / 2)
      from remap_of_gt (by norm_num),
    min_eq_left (by norm_num)]
  have hhalf : (0:ℝ) < π / 2 := by positivity
  rw [div_lt_iff₀ hhalf]
  have := arcsin_small_lt
  linarith

/-- C4 (amended): the remap of redistribute_floor_geometry is monotonically
non-decreasing on each of its two branches — on [0, 1e-4] (identity branch)
and on (1e-4, ∞) (asin branch) — but not across the threshold, and it maps
the fixed points exactly: remap(0) = 0 and remap(1) = 1. -/
theorem c4_remap_branch_monotone_fixed :
    (∀ r1 r2 : ℝ, 0 ≤ r1 → r1 ≤ r2 → r2 ≤ 1 / 10000 → remap r1 ≤ remap r2) ∧
      (∀ r1 r2 : ℝ, 1 / 10000 < r1 → r1 ≤ r2 → remap r1 ≤ remap r2) ∧
      remap 0 = 0 ∧ remap 1 = 1 := by
  refine ⟨?_, ?_, ?_, ?_⟩
  · intro r1 r2 _ h12 h2
    rw [remap_of_le (le_trans h12 h2), remap_of_le h2]
    exact h12
  · intro r1 r2 h1 h12
    rw [remap_of_gt h1, remap_of_gt (lt_of_lt_of_le h1 h12)]
    have harc := Real.monotone_arcsin (min_le_min h12 (le_refl (1:ℝ)))
    have hhalf : (0:ℝ) < π / 2 := by positivity
    exact div_le_div_of_nonneg_right harc hhalf.le
  · rw [remap_of_le (by norm_num)]
  · rw [remap_of_gt (by norm_num), min_self, Real.arcsin_one,
      div_self (by positivity : (π:ℝ) / 2 ≠ 0)]

/-- C4 witness: branch monotonicity and the fixed points evaluated at the
concrete pairs (0, 1/20000) and (1/2, 1). -/
theorem c4_witness :
    remap (0:ℝ) ≤ remap (1 / 20000 : ℝ) ∧ remap (1 / 2 : ℝ) ≤ remap 1 ∧
      remap 0 = 0 ∧ remap 1 = 1 :=
  ⟨c4_remap_branch_monotone_fixed.1 0 (1 / 20000) (by norm_num) (by norm_num)
      (by norm_num),
    c4_remap_branch_monotone_fixed.2.1 (1 / 2) 1 (by norm_num) (by norm_num),
    c4_remap_branch_monotone_fixed.2.2.1,
    c4_remap_branch_monotone_fixed.2.2.2⟩

theorem redistributeVertex_of_gt {v : V3} (hc : 1 / 10000 < planarRadius v) :
    redistributeVertex v =
      ⟨v.x * (Real.arcsin (min (planarRadius v) 1) / (π / 2) / planarRadius v),
        v.y * (Real.arcsin (min (planarRadius v) 1) / (π / 2) / planarRadius v),
        v.z⟩ := by
  simp only [redistributeVertex]
  rw [if_pos hc]

theorem redistributeVertex_of_le {v : V3} (hc : planarRadius v ≤ 1 / 10000) :
    redistributeVertex v = v := by
  simp only [redistributeVertex]
  rw [if_neg (not_lt.mpr hc)]

theorem redistributeVertex_z (v : V3) : (redistributeVertex v).z = v.z := by
  simp only [redistributeVertex]
  split <;> rfl

theorem planarRadius_smul (v : V3) (w : ℝ) {s : ℝ} (hs : 0 ≤ s) :
    planarRadius ⟨v.x * s, v.y * s, w⟩ = planarRadius v * s := by
  simp only [planarRadius]
  rw [show v.x * s * (v.x * s) + v.y * s * (v.y * s)
        = (v.x * v.x + v.y * v.y) * (s * s) by ring,
    Real.sqrt_mul (by nlinarith [mul_self_nonneg v.x, mul_self_nonneg v.y]),
    Real.sqrt_mul_self hs]

/-- The planar radius after redistributeVertex is exactly the remap of the
planar radius before: the scale factor is applied equally to x and y. -/
theorem planarRadius_redistributeVertex (v : V3) :
    planarRadius (redistributeVertex v) = remap (planarRadius v) := by
  by_cases hc : 1 / 10000 < planarRadius v
  · have hrpos : (0:ℝ) < planarRadius v := lt_trans (by norm_num) hc
    have harc : 0 ≤ Real.arcsin (min (planarRadius v) 1) :=
      Real.arcsin_nonneg.mpr (le_min hrpos.le zero_le_one)
    have hs : (0:ℝ) ≤ Real.arcsin (min (planarRadius v) 1) / (π / 2) /
        planarRadius v :=
      div_nonneg (div_nonneg harc (by positivity)) hrpos.le
    rw [redistributeVertex_of_gt hc, planarRadius_smul v v.z hs,
      remap_of_gt hc, mul_comm, div_mul_cancel₀ _ hrpos.ne']
  · rw [redistributeVertex_of_le (not_lt.mp hc), remap_of_le (not_lt.mp hc)]

/-- C10: redistribute_floor_geometry clamps any vertex whose planar radius
exceeds 1 to planar radius exactly asin(1)/(π/2) = 1, scaling x and y by
the same factor 1/r (preserving its angle), and leaves any vertex whose
planar radius is at most 1e-4 entirely unchanged. -/
theorem c10_clamp_and_deadzone (x y z : ℝ) :
    (1 < planarRadius ⟨x, y, z⟩ →
      redistributeVertex ⟨x, y, z⟩ =
        ⟨x * (1 / planarRadius ⟨x, y, z⟩), y * (1 / planarRadius ⟨x, y, z⟩),
          z⟩ ∧
      planarRadius (redistributeVertex ⟨x, y, z⟩) = Real.arcsin 1 / (π / 2) ∧
      Real.arcsin 1 / (π / 2) = 1) ∧
    (planarRadius ⟨x, y, z⟩ ≤ 1 / 10000 →
      redistributeVertex ⟨x, y, z⟩ = ⟨x, y, z⟩) := by
  have hone : Real.arcsin 1 / (π / 2) = 1 := by
    rw [Real.arcsin_one, div_self (by positivity : (π:ℝ) / 2 ≠ 0)]
  constructor
  · intro h1
    have hc : 1 / 10000 < planarRadius ⟨x, y, z⟩ := lt_trans (by norm_num) h1
    have hrpos : (0:ℝ) < planarRadius ⟨x, y, z⟩ := lt_trans (by norm_num) hc
    refine ⟨?_, ?_, hone⟩
    · rw [redistributeVertex_of_gt hc, min_eq_right h1.le, hone]
    · rw [planarRadius_redistributeVertex, remap_of_gt hc,
        min_eq_right h1.le]
  · intro hsmall
    exact redistributeVertex_of_le hsmall

/-- C10 witness: the clamp branch evaluated at the vertex (2, 0, 0)
(planar radius 2) and the dead-zone branch at the vertex (0, 0, 3)
(planar radius 0). -/
theorem c10_witness :
    redistributeVertex ⟨2, 0, 0⟩ =
        ⟨2 * (1 / planarRadius ⟨2, 0, 0⟩), 0 * (1 / planarRadius ⟨2, 0, 0⟩),
          0⟩ ∧
      planarRadius (redistributeVertex ⟨(2:ℝ), 0, 0⟩) = Real.arcsin 1 / (π / 2) ∧
      redistributeVertex ⟨0, 0, 3⟩ = ⟨0, 0, 3⟩ := by
  have h2 : planarRadius ⟨(2:ℝ), 0, 0⟩ = 2 := by
    simp only [planarRadius]
    rw [show (2:ℝ) * 2 + 0 * 0 = 2 * 2 by ring, Real.sqrt_mul_self (by norm_num)]
  have h0 : planarRadius ⟨(0:ℝ), 0, 3⟩ = 0 := by
    simp only [planarRadius]
    norm_num
  have hmain := c10_clamp_and_deadzone 2 0 0
  have hdead := (c10_clamp_and_deadzone 0 0 3).2 (by rw [h0]; norm_num)
  have hbig := hmain.1 (by rw [h2]; norm_num)
  exact ⟨hbig.1, hbig.2.1, hdead⟩

/-- C3 counterexample: the half-dome conversion flattens the floor by
setting the object scale's z to 0; the mesh vertex data keeps its original
vertical coordinates.  For the input vertex (1/2, 0, -1/2) the processed
floor mesh stores z = -1/2, not 0. -/
theorem c3_counterexample :
    ((floorProcess [⟨1 / 2, 0, -(1 / 2)⟩]).2.headI).z = -(1 / 2) ∧
      (-(1 / 2) : ℝ) ≠ 0 := by
  constructor
  · show (redistributeVertex ⟨1 / 2, 0, -(1 / 2)⟩).z = -(1 / 2)
    rw [redistributeVertex_z]
  · norm_num

/-- C3 (amended): after the flattening step every floor vertex has
world-space (scale-applied) vertical coordinate exactly 0 — the flattening
is realised through the object scale (scale.z = 0), not by rewriting the
vertex data — and for each vertex the ratio of post-remap planar radius to
pre-remap planar radius equals remap(r)/r computed from its original
planar radius r. -/
theorem c3_flatten_and_ratio (verts : List V3) :
    (∀ w ∈ (floorProcess verts).2, (worldPos (floorProcess verts).1 w).z = 0) ∧
      ∀ v ∈ verts,
        planarRadius (redistributeVertex v) / planarRadius v =
          remap (planarRadius v) / planarRadius v := by
  constructor
  · intro w _
    show (0:ℝ) * w.z = 0
    rw [zero_mul]
  · intro v _
    rw [planarRadius_redistributeVertex]

/-- C3 witness: the amended statement evaluated on the one-vertex floor
mesh [(1, 0, -3/4)]. -/
theorem c3_witness :
    (worldPos (floorProcess [⟨1, 0, -(3 / 4)⟩]).1
        (redistributeVertex ⟨1, 0, -(3 / 4)⟩)).z = 0 ∧
      planarRadius (redistributeVertex ⟨(1:ℝ), 0, -(3 / 4)⟩) /
          planarRadius ⟨(1:ℝ), 0, -(3 / 4)⟩ =
        remap (planarRadius ⟨(1:ℝ), 0, -(3 / 4)⟩) /
          planarRadius ⟨(1:ℝ), 0, -(3 / 4)⟩ := by
  have h := c3_flatten_and_ratio [⟨1, 0, -(3 / 4)⟩]
  exact ⟨h.1 (redistributeVertex ⟨1, 0, -(3 / 4)⟩)
      (by simp [floorProcess, redistribute_floor_geometry]),
    h.2 ⟨1, 0, -(3 / 4)⟩ (by simp)⟩

/-- C5: the separation predicate classifies every face as floor iff its
median vertical coordinate is at most ε = 0.001, else shell, so each face
lands in exactly one of the two sets; on five faces with median-z values
-0.5, -0.1, 0, 0.2, 0.9 the floor set is the first three and the shell set
the last two. -/
theorem c5_partition :
    (∀ f : Face, (isFloorFace f ∨ isShellFace f) ∧
        ¬(isFloorFace f ∧ isShellFace f)) ∧
      isFloorFace [⟨0, 0, -(1/2)⟩, ⟨1, 0, -(1/2)⟩, ⟨0, 1, -(1/2)⟩] ∧
      isFloorFace [⟨0, 0, -(3/10)⟩, ⟨1, 0, -(1/10)⟩, ⟨0, 1, 1/10⟩] ∧
      isFloorFace [⟨0, 0, -(1/5)⟩, ⟨1, 0, 0⟩, ⟨0, 1, 1/5⟩] ∧
      isShellFace [⟨0, 0, 1/5⟩, ⟨1, 0, 1/5⟩, ⟨0, 1, 1/5⟩] ∧
      isShellFace [⟨0, 0, 9/10⟩, ⟨1, 0, 9/10⟩, ⟨0, 1, 9/10⟩] := by
  refine ⟨fun f => ⟨?_, fun h => h.2 h.1⟩, ?_, ?_, ?_, ?_, ?_⟩
  · exact (em (faceMedianZ f ≤ 1 / 1000)).imp id id
  all_goals
    simp only [isFloorFace, isShellFace, faceMedianZ, List.map, List.sum_cons,
      List.sum_nil, List.length]
    norm_num

/-- C5 witness: the exactly-one-side property evaluated at a concrete
equator-straddling face with median z = 0.001. -/
theorem c5_witness :
    (isFloorFace [⟨0, 0, 1/1000⟩, ⟨1, 0, 1/1000⟩, ⟨0, 1, 1/1000⟩] ∨
        isShellFace [⟨0, 0, 1/1000⟩, ⟨1, 0, 1/1000⟩, ⟨0, 1, 1/1000⟩]) ∧
      ¬(isFloorFace [⟨0, 0, 1/1000⟩, ⟨1, 0, 1/1000⟩, ⟨0, 1, 1/1000⟩] ∧
        isShellFace [⟨0, 0, 1/1000⟩, ⟨1, 0, 1/1000⟩, ⟨0, 1, 1/1000⟩]) :=
  c5_partition.1 [⟨0, 0, 1/1000⟩, ⟨1, 0, 1/1000⟩, ⟨0, 1, 1/1000⟩]

/-- On the arc where the rotated angle stays inside atan2's principal
range, the composed U channel is the linear function (θ + π/2) / (2π). -/
theorem uAngle_eq {θ : ℝ} (h1 : -(π / 2) < θ) (h2 : θ ≤ 3 * π / 2) :
    uAngle θ = (θ + π / 2) / (2 * π) := by
  have hπ := Real.pi_pos
  have hrot : rotZ (-(π / 2)) ⟨Real.cos θ, Real.sin θ, 0⟩ =
      ⟨Real.sin θ, -Real.cos θ, 0⟩ := by
    simp only [rotZ, Real.cos_neg, Real.sin_neg, Real.cos_pi_div_two,
      Real.sin_pi_div_two]
    rw [V3.mk.injEq]
    refine ⟨by ring, by ring, rfl⟩
  have harg : arctan2 (-Real.cos θ) (Real.sin θ) = θ - π / 2 := by
    have hmk : (⟨Real.sin θ, -Real.cos θ⟩ : ℂ) =
        Complex.mk (Real.cos (θ - π / 2)) (Real.sin (θ - π / 2)) := by
      rw [Real.cos_sub_pi_div_two, Real.sin_sub_pi_div_two]
    rw [arctan2, hmk, Complex.mk_eq_add_mul_I, Complex.ofReal_cos,
      Complex.ofReal_sin]
    exact Complex.arg_cos_add_sin_mul_I ⟨by linarith, by linarith⟩
  simp only [uAngle, floorU]
  rw [hrot]
  show mapRange (arctan2 (-Real.cos θ) (Real.sin θ)) (-π) π 0 1 = _
  rw [harg, mapRange]
  have hE : (θ - π / 2 - -π) / (π - -π) * (1 - 0) + 0 = (θ + π / 2) / (2 * π) := by
    rw [show θ - π / 2 - -π = θ + π / 2 by ring, show π - -π = 2 * π by ring]
    ring
  rw [hE, max_eq_left (div_nonneg (by linarith) (by linarith)),
    min_eq_left (by rw [div_le_one (by linarith)]; linarith)]

/-- C2 counterexample: for the input point at angle θ = 0 the literal
composition of the -90° Z rotation, Atan2(y, x) and the [-π, π] → [0, 1]
remap yields u = 1/4, not the claimed 3/4. -/
theorem c2_counterexample : uAngle 0 = 1 / 4 ∧ uAngle 0 ≠ 3 / 4 := by
  have hπ := Real.pi_pos
  have h := uAngle_eq (θ := 0) (by linarith) (by linarith)
  rw [zero_add] at h
  have hval : uAngle 0 = 1 / 4 := by
    rw [h, div_eq_div_iff (by linarith) (by norm_num : (4:ℝ) ≠ 0)]
    ring
  exact ⟨hval, by rw [hval]; norm_num⟩

/-- C2 (amended): in the floor projection graph the composition of the
-90° Z rotation, Atan2(y, x) and the [-π, π] → [0, 1] remap sends the
point at angle θ = 0 to u = 1/4; on the whole arc θ ∈ (-π/2, 3π/2] —
i.e. away from the seam at θ = -π/2, the pre-image of atan2's ±π seam
under the rotation — u equals the linear function (θ + π/2)/(2π) and is
therefore continuous and strictly monotonic in θ there. -/
theorem c2_floor_u_channel :
    uAngle 0 = 1 / 4 ∧
      (∀ θ : ℝ, -(π / 2) < θ → θ ≤ 3 * π / 2 →
        uAngle θ = (θ + π / 2) / (2 * π)) ∧
      (∀ θ₁ θ₂ : ℝ, -(π / 2) < θ₁ → θ₁ < θ₂ → θ₂ ≤ 3 * π / 2 →
        uAngle θ₁ < uAngle θ₂) ∧
      ContinuousOn uAngle (Set.Ioo (-(π / 2)) (3 * π / 2)) := by
  have hπ := Real.pi_pos
  refine ⟨?_, fun θ ha hb => uAngle_eq ha hb, ?_, ?_⟩
  · have h := uAngle_eq (θ := 0) (by linarith) (by linarith)
    rw [zero_add] at h
    rw [h, div_eq_div_iff (by linarith) (by norm_num : (4:ℝ) ≠ 0)]
    ring
  · intro θ₁ θ₂ ha hab hb
    rw [uAngle_eq ha (by linarith), uAngle_eq (by linarith) hb,
      div_lt_div_iff_of_pos_right (by linarith)]
    linarith
  · refine ContinuousOn.congr
      (f := fun θ : ℝ => (θ + π / 2) / (2 * π)) ?_ ?_
    · exact ((continuous_id.add continuous_const).div_const _).continuousOn
    · intro θ hθ
      exact uAngle_eq hθ.1 hθ.2.le

/-- C2 witness: the amended description evaluated at the concrete angles
θ = 0 and θ = π/2. -/
theorem c2_witness :
    uAngle 0 = 1 / 4 ∧ uAngle (π / 2) = (π / 2 + π / 2) / (2 * π) :=
  ⟨c2_floor_u_channel.1,
    c2_floor_u_channel.2.1 (π / 2) (by linarith [Real.pi_pos])
      (by linarith [Real.pi_pos])⟩

/-- C7: for every outcome of the image load — including the failure
outcome none, where the swallowed exception leaves the image slot empty —
both material graphs are built in full: the image-sampling node exists and
carries that outcome, it stays wired into the graph, the graph is acyclic,
and the output node is reachable from the coordinate node. -/
theorem c7_graph_total (img : Option String) :
    ((4, NodeKind.texImage img) ∈ polarNodes img ∧
      (12, 4) ∈ polarLinks ∧ (4, 2) ∈ polarLinks ∧ (4, 3) ∈ polarLinks ∧
      acyclicG polarLinks ∧ reachIn polarLinks 13 5 0 = true) ∧
    ((0, NodeKind.texEnvironment img) ∈ shellNodes img ∧
      (1, 0) ∈ shellLinks ∧ (0, 2) ∈ shellLinks ∧
      acyclicG shellLinks ∧ reachIn shellLinks 4 1 3 = true) := by
  refine ⟨⟨?_, ?_, ?_, ?_, ⟨?_, ?_⟩, ?_⟩, ?_, ?_, ?_, ⟨?_, ?_⟩, ?_⟩
  · simp [polarNodes]
  · simp [polarLinks]
  · simp [polarLinks]
  · simp [polarLinks]
  · exact fun n =>
      match n with
      | 5 => 0 | 6 => 1 | 7 => 2 | 8 => 3 | 9 => 4 | 10 => 5 | 11 => 6
      | 12 => 7 | 4 => 8 | 2 => 9 | 3 => 10 | 1 => 11 | _ => 12
  · decide
  · decide
  · simp [shellNodes]
  · simp [shellLinks]
  · simp [shellLinks]
  · exact fun n => match n with | 1 => 0 | 0 => 1 | 2 => 2 | _ => 3
  · decide
  · decide

theorem get_strip_path_of_invalid (abspath : String → String) {c : Context}
    (h : stripInvalid c) : get_strip_path abspath c = none := by
  obtain ⟨se⟩ := c
  cases se with
  | none => rfl
  | some se =>
    obtain ⟨ast⟩ := se
    cases ast with
    | none => rfl
    | some strip =>
      simp only [stripInvalid] at h
      simp only [get_strip_path, h]

/-- C8: when the active strip is neither a movie nor an image (or there is
no active strip or no sequence editor), both conversion operators return
CANCELLED with the scene state they were given: nothing is deleted or
created and no renderer or world setting changes. -/
theorem c8_abort_before_mutation (abspath : String → String)
    (load : String → Option String) (mesh : List Face) (c : Context)
    (s : SceneState) (h : stripInvalid c) :
    halfDomeExecute abspath load mesh c s = (OpStatus.cancelled, s) ∧
      envExecute abspath c s = (OpStatus.cancelled, s) := by
  have hp := get_strip_path_of_invalid abspath h
  constructor
  · simp only [halfDomeExecute, hp]
  · simp only [envExecute, hp]

/-- C8 witness: both operators evaluated on a context with no sequence
editor and a concrete scene state. -/
theorem c8_witness :
    halfDomeExecute id (fun _ => none) [] ⟨none⟩
        ⟨"BLENDER_EEVEE", ["Cube"], false, none, none, none, none⟩ =
      (OpStatus.cancelled,
        ⟨"BLENDER_EEVEE", ["Cube"], false, none, none, none, none⟩) ∧
    envExecute id ⟨none⟩
        ⟨"BLENDER_EEVEE", ["Cube"], false, none, none, none, none⟩ =
      (OpStatus.cancelled,
        ⟨"BLENDER_EEVEE", ["Cube"], false, none, none, none, none⟩) :=
  c8_abort_before_mutation id (fun _ => none) [] ⟨none⟩
    ⟨"BLENDER_EEVEE", ["Cube"], false, none, none, none, none⟩ trivial

theorem count_delete_other {n m : String} (hne : n ≠ m) (l : List String) :
    (delete_existing_object m l).count n = l.count n := by
  simp only [delete_existing_object]
  split
  · exact List.count_erase_of_ne hne l
  · rfl

theorem count_delete_self {n : String} {l : List String} (h : l.count n ≤ 1) :
    (delete_existing_object n l).count n = 0 := by
  by_cases hm : n ∈ l
  · simp only [delete_existing_object, if_pos hm, List.count_erase_self]
    have h1 : 0 < l.count n := List.count_pos_iff.mpr hm
    omega
  · simp only [delete_existing_object, if_neg hm]
    exact List.count_eq_zero.mpr hm

/-- One half-dome conversion leaves the count of each reserved name at
most 1, provided it was at most 1 before (Blender's datablock names are
unique, so the count is always 0 or 1 in the host). -/
theorem count_halfDomeBody_le (load : String → Option String) (p : String)
    (mesh : List Face) (s : SceneState) {n : String}
    (hn : n = NAME_DOME_SHELL ∨ n = NAME_DOME_FLOOR ∨ n = NAME_SUN)
    (h : s.objects.count n ≤ 1) :
    (halfDomeBody load p mesh s).objects.count n ≤ 1 := by
  simp only [halfDomeBody]
  rw [List.count_append, List.count_append, List.count_append]
  rcases hn with rfl | rfl | rfl
  · have hA : (delete_existing_object NAME_SUN
        (delete_existing_object NAME_DOME_FLOOR
          (delete_existing_object NAME_DOME_SHELL s.objects))).count
        NAME_DOME_SHELL = 0 := by
      rw [count_delete_other (by decide), count_delete_other (by decide),
        count_delete_self h]
    have hC : (if (floorSelect mesh).isEmpty then ([] : List String)
        else [NAME_DOME_FLOOR]).count NAME_DOME_SHELL = 0 := by
      split <;> decide
    rw [hA, hC]
    decide
  · have h1 : (delete_existing_object NAME_DOME_SHELL s.objects).count
        NAME_DOME_FLOOR ≤ 1 := by
      rw [count_delete_other (by decide)]; exact h
    have hA : (delete_existing_object NAME_SUN
        (delete_existing_object NAME_DOME_FLOOR
          (delete_existing_object NAME_DOME_SHELL s.objects))).count
        NAME_DOME_FLOOR = 0 := by
      rw [count_delete_other (by decide), count_delete_self h1]
    have hC : (if (floorSelect mesh).isEmpty then ([] : List String)
        else [NAME_DOME_FLOOR]).count NAME_DOME_FLOOR ≤ 1 := by
      split <;> decide
    rw [hA]
    have hB : List.count NAME_DOME_FLOOR [NAME_DOME_SHELL] = 0 := by decide
    have hD : List.count NAME_DOME_FLOOR [NAME_SUN] = 0 := by decide
    rw [hB, hD]
    omega
  · have h2 : (delete_existing_object NAME_DOME_FLOOR
        (delete_existing_object NAME_DOME_SHELL s.objects)).count
        NAME_SUN ≤ 1 := by
      rw [count_delete_other (by decide), count_delete_other (by decide)]
      exact h
    have hA : (delete_existing_object NAME_SUN
        (delete_existing_object NAME_DOME_FLOOR
          (delete_existing_object NAME_DOME_SHELL s.objects))).count
        NAME_SUN = 0 := count_delete_self h2
    have hC : (if (floorSelect mesh).isEmpty then ([] : List String)
        else [NAME_DOME_FLOOR]).count NAME_SUN = 0 := by
      split <;> decide
    rw [hA, hC]
    decide

/-- C6: starting from a scene with at most one entity per reserved name
(as Blender's unique datablock names guarantee), running the half-dome
conversion any number of times leaves at most one live entity per reserved
name (shell, floor, sun): each conversion deletes any existing entity of
the name before creating a new one, so repeats replace instead of
accumulating duplicates. -/
theorem c6_replace_on_convert (load : String → Option String) (p : String)
    (mesh : List Face) (s : SceneState) (n : String)
    (hn : n = NAME_DOME_SHELL ∨ n = NAME_DOME_FLOOR ∨ n = NAME_SUN)
    (h : s.objects.count n ≤ 1) :
    ∀ k : ℕ, ((halfDomeBody load p mesh)^[k] s).objects.count n ≤ 1 := by
  intro k
  induction k generalizing s with
  | zero => simpa using h
  | succ k ih =>
    rw [Function.iterate_succ_apply]
    exact ih _ (count_halfDomeBody_le load p mesh s hn h)

/-- C6 witness: two consecutive conversions on a scene already holding a
shell entity leave the shell name with at most one entity. -/
theorem c6_witness :
    ((halfDomeBody (fun _ => none) "hdri.png" [])^[2]
        ⟨"CYCLES", [NAME_DOME_SHELL, "Cube"], true, some 1, none, none,
          none⟩).objects.count NAME_DOME_SHELL ≤ 1 :=
  c6_replace_on_convert (fun _ => none) "hdri.png" []
    ⟨"CYCLES", [NAME_DOME_SHELL, "Cube"], true, some 1, none, none, none⟩
    NAME_DOME_SHELL (Or.inl rfl) (by decide) 2

theorem floorSelect_eq_nil {mesh : List Face}
    (h : ∀ f ∈ mesh, ¬ faceMedianZ f ≤ 1 / 1000) : floorSelect mesh = [] := by
  simp only [floorSelect]
  apply List.filter_eq_nil_iff.mpr
  intro a ha
  simpa using h a ha

/-- C9: when no face has median z at or below ε (the FloorNotFound
condition) — and the strip resolves to a usable path — the half-dome
conversion still finishes: no floor entity, floor material or floor vertex
data is produced, while the shell entity and its shell material are. -/
theorem c9_floor_not_found (abspath : String → String)
    (load : String → Option String) (mesh : List Face) (c : Context)
    (s : SceneState) (p : String)
    (hpath : get_strip_path abspath c = some p) (hp : p.isEmpty = false)
    (hnofloor : ∀ f ∈ mesh, ¬ faceMedianZ f ≤ 1 / 1000)
    (hcount : s.objects.count NAME_DOME_FLOOR ≤ 1) :
    halfDomeExecute abspath load mesh c s =
        (OpStatus.finished, halfDomeBody load p mesh s) ∧
      (halfDomeBody load p mesh s).floorMat = none ∧
      (halfDomeBody load p mesh s).floorVerts = none ∧
      NAME_DOME_FLOOR ∉ (halfDomeBody load p mesh s).objects ∧
      NAME_DOME_SHELL ∈ (halfDomeBody load p mesh s).objects ∧
      (halfDomeBody load p mesh s).shellMat =
        some (shellNodes (load p), shellLinks) := by
  have hsel := floorSelect_eq_nil hnofloor
  have h1 : (delete_existing_object NAME_DOME_SHELL s.objects).count
      NAME_DOME_FLOOR ≤ 1 := by
    rw [count_delete_other (by decide)]; exact hcount
  have hzero : (delete_existing_object NAME_SUN
      (delete_existing_object NAME_DOME_FLOOR
        (delete_existing_object NAME_DOME_SHELL s.objects))).count
      NAME_DOME_FLOOR = 0 := by
    rw [count_delete_other (by decide), count_delete_self h1]
  refine ⟨?_, ?_, ?_, ?_, ?_, ?_⟩
  · simp only [halfDomeExecute, hpath, hp, Bool.false_eq_true, if_false]
  · simp [halfDomeBody, hsel]
  · simp [halfDomeBody, hsel]
  · simp only [halfDomeBody, hsel, List.isEmpty_nil, if_true,
      List.append_nil, List.mem_append, List.mem_singleton]
    push_neg
    exact ⟨⟨List.count_eq_zero.mp hzero, by decide⟩, by decide⟩
  · simp [halfDomeBody, hsel]
  · simp [halfDomeBody]

/-- C9 witness: a one-face mesh lying entirely at z = 1 (no floor face),
with a movie strip resolving to the path hdri.png. -/
theorem c9_witness :
    halfDomeExecute id (fun _ => none)
        [[⟨0, 0, 1⟩, ⟨1, 0, 1⟩, ⟨0, 1, 1⟩]]
        ⟨some ⟨some ⟨StripType.movie, "hdri.png", "", []⟩⟩⟩
        ⟨"CYCLES", [], true, some 1, none, none, none⟩ =
        (OpStatus.finished,
          halfDomeBody (fun _ => none) "hdri.png"
            [[⟨0, 0, 1⟩, ⟨1, 0, 1⟩, ⟨0, 1, 1⟩]]
            ⟨"CYCLES", [], true, some 1, none, none, none⟩) ∧
      (halfDomeBody (fun _ => none) "hdri.png"
          [[⟨0, 0, 1⟩, ⟨1, 0, 1⟩, ⟨0, 1, 1⟩]]
          ⟨"CYCLES", [], true, some 1, none, none, none⟩).floorMat = none ∧
      (halfDomeBody (fun _ => none) "hdri.png"
          [[⟨0, 0, 1⟩, ⟨1, 0, 1⟩, ⟨0, 1, 1⟩]]
          ⟨"CYCLES", [], true, some 1, none, none, none⟩).floorVerts = none ∧
      NAME_DOME_FLOOR ∉ (halfDomeBody (fun _ => none) "hdri.png"
          [[⟨0, 0, 1⟩, ⟨1, 0, 1⟩, ⟨0, 1, 1⟩]]
          ⟨"CYCLES", [], true, some 1, none, none, none⟩).objects ∧
      NAME_DOME_SHELL ∈ (halfDomeBody (fun _ => none) "hdri.png"
          [[⟨0, 0, 1⟩, ⟨1, 0, 1⟩, ⟨0, 1, 1⟩]]
          ⟨"CYCLES", [], true, some 1, none, none, none⟩).objects ∧
      (halfDomeBody (fun _ => none) "hdri.png"
          [[⟨0, 0, 1⟩, ⟨1, 0, 1⟩, ⟨0, 1, 1⟩]]
          ⟨"CYCLES", [], true, some 1, none, none, none⟩).shellMat =
        some (shellNodes ((fun _ => none) "hdri.png"), shellLinks) :=
  c9_floor_not_found id (fun _ => none)
    [[⟨0, 0, 1⟩, ⟨1, 0, 1⟩, ⟨0, 1, 1⟩]]
    ⟨some ⟨some ⟨StripType.movie, "hdri.png", "", []⟩⟩⟩
    ⟨"CYCLES", [], true, some 1, none, none, none⟩ "hdri.png" rfl rfl
    (by
      intro f hf
      rw [List.mem_singleton] at hf
      subst hf
      simp only [faceMedianZ, List.map, List.sum_cons, List.sum_nil,
        List.length]
      norm_num)
    (by simp)

end VseDome
